import Mathlib

/-!
Verification of the divortio-session-worker identifier libraries:
`src/lib/pushID.js` (ID codec, hash, random suffix) and
`src/lib/sessionManager.js` (session lifecycle engine).

JavaScript strings are embedded as `List Char`; nullable values as `Option`;
millisecond timestamps as `Nat` (with `Int` where JS subtraction may go
negative).  `Date.now()` and the PRNG-produced random suffix are injected as
explicit parameters, mirroring the spec's requirement that the "now" and
"random" sources be injectable.
-/

namespace Divortio

/-- JS truthiness of a nullable string: `null`/`undefined` and `""` are falsy. -/
def jsTruthy : Option (List Char) → Bool
  | none => false
  | some s => !s.isEmpty

/-- JS truthiness of a nullable number: `null`/`undefined` and `0` are falsy. -/
def jsTruthyNum : Option Nat → Bool
  | none => false
  | some n => n != 0

/-- JS `String.prototype.charAt`: the one-character substring at index `i`,
empty when out of range. -/
def jsCharAt (s : List Char) (i : Nat) : List Char :=
  (s.drop i).take 1

/-- JS `String.prototype.split` with a single-character separator:
segments between occurrences of `sep`, keeping empty segments
(`"".split` gives `[""]`, `"a--b".split` gives `["a","","b"]`). -/
def splitOnChar (sep : Char) : List Char → List (List Char)
  | [] => [[]]
  | c :: cs =>
    if c = sep then
      [] :: splitOnChar sep cs
    else
      match splitOnChar sep cs with
      | [] => [[c]]
      | seg :: rest => (c :: seg) :: rest

/-- JS `Math.imul`, read as its unsigned 32-bit bit pattern. -/
def imul (a b : Nat) : Nat := (a * b) % 4294967296

/-- JS `new Date(x)` for `x : number | null`: `null` coerces to the epoch 0. -/
def jsDate (t : Option Nat) : Nat := t.getD 0

/-- The `PUSH_CHARS` alphabet from pushID.js: 64 symbols, ordered so that
byte-wise string comparison matches numeric comparison of the encoded value. -/
def PUSH_CHARS : List Char :=
  "0123456789ABCDEFGHIJKLMNOPQRSTUVWXYZ_abcdefghijklmnopqrstuvwxyz~".data

/-- The `CHARS_MAP` lookup: the index of `c` in `PUSH_CHARS`, or `none`
(JS `undefined`) when `c` is not in the alphabet. -/
def charValue (c : Char) : Option Nat :=
  let i := PUSH_CHARS.indexOf c
  if i < PUSH_CHARS.length then some i else none

/-- The character `PUSH_CHARS.charAt(d)` for an in-range digit `d < 64` (as produced by
`% 64` in `_generateObject`). -/
def charOfDigit (d : Nat) : Char := PUSH_CHARS.getD d ' '

/-- The big-endian base-64 digits written by `_generateObject`'s timestamp
loop: for `i = n-1 .. 0`, digit `i` is `t % 64`, then `t := ⌊t / 64⌋`. -/
def encodeTimeDigits : Nat → Nat → List Nat
  | 0, _ => []
  | n + 1, t => encodeTimeDigits n (t / 64) ++ [t % 64]

/-- The 8-character encoded timestamp (`timeChars` in `_generateObject`). -/
def encodeTime8 (t : Nat) : List Char :=
  (encodeTimeDigits 8 t).map charOfDigit

/-- The loop body of `_decodeTime`: accumulate `timestamp * 64 + charValue`,
returning `null` on the first character outside the alphabet. -/
def decodeTimeAux (acc : Nat) : List Char → Option Nat
  | [] => some acc
  | c :: cs =>
    match charValue c with
    | none => none
    | some v => decodeTimeAux (acc * 64 + v) cs

/-- Function `_decodeTime` from pushID.js. -/
def _decodeTime (timeStr : List Char) : Option Nat :=
  decodeTimeAux 0 timeStr

/-- A decoded pushID (`DecodedPushIDObject`); `time` is the millisecond
value of its `date` field. -/
structure DecodedPushID where
  id : List Char
  randomness : List Char
  time : Nat
  stub : Option (List Char)
  encodedTime : List Char
  deriving Repr, DecidableEq

/-- Function `_decodeObj` from pushID.js. -/
def _decodeObj (id : List Char) : Option DecodedPushID :=
  if id.length = 0 then none
  else
    let parts := splitOnChar '-' id
    if parts.length = 3 then
      let timeStr := parts.getD 0 []
      let stub := parts.getD 1 []
      let randStr := parts.getD 2 []
      match _decodeTime timeStr with
      | none => none
      | some timestamp =>
        some { id := id, randomness := randStr, time := timestamp,
               stub := some stub, encodedTime := timeStr }
    else
      if id.length < 8 then none
      else
        let timeStr := id.take 8
        let randStr := id.drop 8
        match _decodeTime timeStr with
        | none => none
        | some timestamp =>
          some { id := id, randomness := randStr, time := timestamp,
                 stub := none, encodedTime := timeStr }

/-- Public `pushID.decodeID` (and `tryDecodeID`, which differs only by a
`try`/`catch` that the total embedding does not need). -/
def decodeID (id : List Char) : Option DecodedPushID := _decodeObj id

/-- Public `pushID.decodeTime`: the millisecond timestamp of a pushID, or `null`. -/
def decodeTime (id : List Char) : Option Nat :=
  (decodeID id).map (fun d => d.time)

/-- The four 32-bit hash lanes of `hashIsh`, as unsigned bit patterns. -/
structure HashState where
  h1 : Nat
  h2 : Nat
  h3 : Nat
  h4 : Nat
  deriving Repr, DecidableEq

/-- The MurmurHash3-style seed values of `hashIsh`. -/
def hashInit : HashState :=
  { h1 := 1779033703, h2 := 3144134277, h3 := 1013904242, h4 := 2773480762 }

/-- One iteration of `hashIsh`'s mixing loop over the char code `k`.
JS `^`, `Math.imul` and `>>>` are read on the unsigned 32-bit bit pattern:
`a ^ b` is `Nat.xor`, `Math.imul a b` is `a * b % 2^32`, `a >>> s` is
`a / 2^s`, and the final `(h1 ^ k) >>> 0` is the identity on the pattern. -/
def hashStep (st : HashState) (k : Nat) : HashState :=
  let h1 := Nat.xor st.h2 (imul st.h1 597399067)
  let h2 := Nat.xor st.h3 (imul st.h2 2869860233)
  let h3 := Nat.xor st.h4 (imul st.h3 951274213)
  let h4 := Nat.xor h1 (imul st.h4 2716044179)
  let h1 := imul (Nat.xor h1 (h1 / 2 ^ 16)) 2246822507
  let h2 := imul (Nat.xor h2 (h2 / 2 ^ 13)) 3266489909
  let h3 := imul (Nat.xor h3 (h3 / 2 ^ 16)) 2246822507
  let h4 := imul (Nat.xor h4 (h4 / 2 ^ 13)) 3266489909
  let h1 := Nat.xor h1 k
  { h1 := h1, h2 := h2, h3 := h3, h4 := h4 }

/-- Function `hashIsh` from pushID.js, applied to the char codes of the serialized
input.  The char index `(state[i % 4] >> ((i % 5) * 3)) & 63` uses JS's
signed `>>`; since the shift is at most 12 and the mask keeps bits
`s .. s+5` with `s + 6 ≤ 32`, the masked result equals the unsigned
shift-and-mask of the 32-bit pattern, which is what is written here. -/
def hashIsh (codes : List Nat) (length : Nat) (chars : List Char) : List Char :=
  let st := codes.foldl hashStep hashInit
  (((List.range length).map (fun i =>
    let state := [st.h1, st.h2, st.h3, st.h4]
    let charIndex := Nat.land (state.getD (i % 4) 0 / 2 ^ ((i % 5) * 3)) 63
    jsCharAt chars charIndex))).flatten

/-- Public `pushID.newRnd`: a random string of `max 12 length` alphabet symbols.
The PRNG is injected as the stream `rnd` of char indices, standing for
`Math.floor(prng() * 64)` at each position. -/
def newRnd (length : Nat) (rnd : Nat → Nat) : List Char :=
  let len := max 12 length
  (((List.range len).map (fun i => jsCharAt PUSH_CHARS (rnd i)))).flatten

/-- Public `pushID.hash`: clamp the length to at least 12 and call `hashIsh`. -/
def hash (input : List Nat) (length : Nat) : List Char :=
  let len := max 12 length
  hashIsh input len PUSH_CHARS

/-- A generated pushID (`PushIDObject`); `time` is the millisecond value of
its `date` field. -/
structure PushIDObject where
  id : List Char
  randomness : List Char
  time : Nat
  stub : Option (List Char)
  deriving Repr, DecidableEq

/-- Function `_generateObject` from pushID.js.  `time` is the resolved timestamp
(the `options.time` value, or the injected `Date.now()`); `randomness` and
`data` are the optional `options.randomness` / `options.data`; `rnd` is the
injected PRNG char-index stream used when neither is supplied. -/
def _generateObject (time : Nat) (stub : Option (List Char)) (length : Nat)
    (randomness : Option (List Char)) (data : Option (List Nat))
    (rnd : Nat → Nat) : PushIDObject :=
  let randLength := max 12 length
  let timeChars := encodeTime8 time
  let randStr :=
    match randomness with
    | some s => s
    | none =>
      match data with
      | some d => hashIsh d randLength PUSH_CHARS
      | none => newRnd randLength rnd
  let useDelimitedFormat := jsTruthy stub
  let id :=
    if useDelimitedFormat then
      timeChars ++ '-' :: stub.getD [] ++ '-' :: randStr
    else
      timeChars ++ randStr
  { id := id, randomness := randStr, time := time,
    stub := if useDelimitedFormat then stub else none }

/-- Session manager configuration (`finalConfig` in sessionManager.js). -/
structure SMConfig where
  sessionTimeout : Nat
  randomnessLength : Nat
  deriving Repr, DecidableEq

/-- The defaults: 30-minute timeout, 12-character randomness. -/
def defaultConfig : SMConfig := { sessionTimeout := 30 * 60 * 1000, randomnessLength := 12 }

/-- The `oldState` record built by `process`: the three stored identifiers
and their decoded times (`null` when the identifier is falsy; a decode
failure inside `new Date(...)` coerces to the epoch). -/
structure OldState where
  cID : Option (List Char)
  sID : Option (List Char)
  eID : Option (List Char)
  clientTime : Option Nat
  sessionTime : Option Nat
  eventTime : Option Nat
  deriving Repr, DecidableEq

/-- The `newState` record built by `process`: always three non-null
identifiers with their decoded times. -/
structure NewState where
  cID : List Char
  sID : List Char
  eID : List Char
  clientTime : Nat
  sessionTime : Nat
  eventTime : Nat
  deriving Repr, DecidableEq

/-- The change flags computed by `process`. -/
structure SMChanges where
  isNewClient : Bool
  isNewSession : Bool
  deriving Repr, DecidableEq

/-- The full result of `process`. -/
structure ProcessResult where
  newState : NewState
  oldState : OldState
  changes : SMChanges
  deriving Repr, DecidableEq

/-- Line 40 of sessionManager.js:
`prevEID ? decodeTime(prevEID) : (sID ? decodeTime(sID) : (cID ? decodeTime(cID) : null))`.
Note the conditionals test the truthiness of the stored strings, not
whether they decode. -/
def lastActivityTime (cID sID prevEID : Option (List Char)) : Option Nat :=
  if jsTruthy prevEID then decodeTime (prevEID.getD [])
  else if jsTruthy sID then decodeTime (sID.getD [])
  else if jsTruthy cID then decodeTime (cID.getD [])
  else none

/-- The engine `sessionManager().process`.  The storage handler is a map from key to
stored string; `now` is the injected `Date.now()` (used both for the expiry
check and for the minted event id); `rnd` is the injected PRNG stream
consumed by `newRnd` for the minted id's random suffix. -/
def process (cfg : SMConfig) (storage : String → Option (List Char))
    (now : Nat) (rnd : Nat → Nat) : ProcessResult :=
  let cID := storage "cID"
  let sID := storage "sID"
  let prevEID := storage "eID"
  let oldState : OldState :=
    { cID := cID, sID := sID, eID := prevEID,
      clientTime := if jsTruthy cID then some (jsDate (decodeTime (cID.getD []))) else none,
      sessionTime := if jsTruthy sID then some (jsDate (decodeTime (sID.getD []))) else none,
      eventTime := if jsTruthy prevEID then some (jsDate (decodeTime (prevEID.getD []))) else none }
  let lastActivity := lastActivityTime cID sID prevEID
  let isSessionExpired : Bool :=
    if jsTruthyNum lastActivity then
      decide ((now : Int) - (lastActivity.getD 0 : Nat) > (cfg.sessionTimeout : Int))
    else true
  let isNewClient := !jsTruthy cID
  let isNewSession := !jsTruthy sID || isSessionExpired
  let newEIDObj := _generateObject now none cfg.randomnessLength none none rnd
  let finalCID := if jsTruthy cID then cID.getD [] else newEIDObj.id
  let finalSID := if isNewSession then newEIDObj.id else sID.getD []
  let newState : NewState :=
    { cID := finalCID, sID := finalSID, eID := newEIDObj.id,
      clientTime := jsDate (decodeTime finalCID),
      sessionTime := jsDate (decodeTime finalSID),
      eventTime := newEIDObj.time }
  { newState := newState, oldState := oldState,
    changes := { isNewClient := isNewClient, isNewSession := isNewSession } }

/-- The cookie-sourced candidate state passed to `rehydrate`. -/
structure CookieState where
  cID : Option (List Char)
  sID : Option (List Char)
  eID : Option (List Char)
  deriving Repr, DecidableEq

/-- The recovery path `sessionManager().rehydrate`: build `newStateFromCookies` and feed
`process` a storage handler reading `newStateFromCookies[key] || null`.
Property access is modelled by an association list over the three
identifier keys (the only keys `process` reads). -/
def rehydrate (cfg : SMConfig) (cs : CookieState)
    (now : Nat) (rnd : Nat → Nat) : ProcessResult :=
  let handler : String → Option (List Char) := fun key =>
    let v := (List.lookup key [("cID", cs.cID), ("sID", cs.sID), ("eID", cs.eID)]).join
    if jsTruthy v then v else none
  process cfg handler now rnd

end Divortio

namespace Divortio

/-- Projection of `process`: `isNewClient` is the falsiness of the stored
client id (line 43). -/
lemma process_isNewClient (cfg : SMConfig) (storage : String → Option (List Char))
    (now : Nat) (rnd : Nat → Nat) :
    (process cfg storage now rnd).changes.isNewClient = !jsTruthy (storage "cID") := rfl

/-- Projection of `process`: `isNewSession` is `!sID || isSessionExpired`
(lines 41 and 44). -/
lemma process_isNewSession (cfg : SMConfig) (storage : String → Option (List Char))
    (now : Nat) (rnd : Nat → Nat) :
    (process cfg storage now rnd).changes.isNewSession =
      (!jsTruthy (storage "sID") ||
        (if jsTruthyNum (lastActivityTime (storage "cID") (storage "sID") (storage "eID")) then
          decide ((now : Int) -
              ((lastActivityTime (storage "cID") (storage "sID") (storage "eID")).getD 0 : Nat) >
            (cfg.sessionTimeout : Int))
        else true)) := rfl

/-- Projection of `process`: the output client id is the stored one when
truthy, else the minted id (line 47). -/
lemma process_newState_cID (cfg : SMConfig) (storage : String → Option (List Char))
    (now : Nat) (rnd : Nat → Nat) :
    (process cfg storage now rnd).newState.cID =
      (if jsTruthy (storage "cID") then (storage "cID").getD []
       else (_generateObject now none cfg.randomnessLength none none rnd).id) := rfl

/-- Projection of `process`: the output session id is the minted id exactly
when the session is new, else the stored session id (line 48). -/
lemma process_newState_sID (cfg : SMConfig) (storage : String → Option (List Char))
    (now : Nat) (rnd : Nat → Nat) :
    (process cfg storage now rnd).newState.sID =
      (if (process cfg storage now rnd).changes.isNewSession then
        (_generateObject now none cfg.randomnessLength none none rnd).id
       else (storage "sID").getD []) := rfl

/-- Projection of `process`: the output event id is always the minted id
(line 53). -/
lemma process_newState_eID (cfg : SMConfig) (storage : String → Option (List Char))
    (now : Nat) (rnd : Nat → Nat) :
    (process cfg storage now rnd).newState.eID =
      (_generateObject now none cfg.randomnessLength none none rnd).id := rfl

/-- The storage handler described by claim C5's words: a handler that
returns `cookieState.cID`, `cookieState.sID`, `cookieState.eID` (null when
falsy) for the keys `cID`, `sID`, `eID`.  This is the spec-side definition
of the refinement claim, to be compared with `rehydrate`. -/
def specCookieStorage (cs : CookieState) : String → Option (List Char) := fun key =>
  if key = "cID" then (if jsTruthy cs.cID then cs.cID else none)
  else if key = "sID" then (if jsTruthy cs.sID then cs.sID else none)
  else if key = "eID" then (if jsTruthy cs.eID then cs.eID else none)
  else none

/-- Claim C1: with a storage handler returning null for all three keys
`cID`, `sID`, `eID`, `process` reports a new client and a new session, and
all three output identifiers equal the single identifier minted during the
invocation. -/
theorem c1_first_contact (cfg : SMConfig) (storage : String → Option (List Char))
    (now : Nat) (rnd : Nat → Nat)
    (hc : storage "cID" = none) (hs : storage "sID" = none) (he : storage "eID" = none) :
    (process cfg storage now rnd).changes.isNewClient = true ∧
    (process cfg storage now rnd).changes.isNewSession = true ∧
    (process cfg storage now rnd).newState.cID =
      (_generateObject now none cfg.randomnessLength none none rnd).id ∧
    (process cfg storage now rnd).newState.sID =
      (_generateObject now none cfg.randomnessLength none none rnd).id ∧
    (process cfg storage now rnd).newState.eID =
      (_generateObject now none cfg.randomnessLength none none rnd).id := by
  have hns : (process cfg storage now rnd).changes.isNewSession = true := by
    rw [process_isNewSession, hs]
    simp [jsTruthy]
  refine ⟨?_, hns, ?_, ?_, process_newState_eID cfg storage now rnd⟩
  · rw [process_isNewClient, hc]
    simp [jsTruthy]
  · rw [process_newState_cID, hc]
    simp [jsTruthy]
  · rw [process_newState_sID, hns]
    simp

/-- Witness for C1 at a concrete empty previous state. -/
theorem c1_first_contact_check :
    (process defaultConfig (fun _ => none) 1700000000000 (fun _ => 0)).changes.isNewClient = true ∧
    (process defaultConfig (fun _ => none) 1700000000000 (fun _ => 0)).changes.isNewSession = true ∧
    (process defaultConfig (fun _ => none) 1700000000000 (fun _ => 0)).newState.cID =
      (_generateObject 1700000000000 none defaultConfig.randomnessLength none none (fun _ => 0)).id ∧
    (process defaultConfig (fun _ => none) 1700000000000 (fun _ => 0)).newState.sID =
      (_generateObject 1700000000000 none defaultConfig.randomnessLength none none (fun _ => 0)).id ∧
    (process defaultConfig (fun _ => none) 1700000000000 (fun _ => 0)).newState.eID =
      (_generateObject 1700000000000 none defaultConfig.randomnessLength none none (fun _ => 0)).id :=
  c1_first_contact defaultConfig (fun _ => none) 1700000000000 (fun _ => 0) rfl rfl rfl

/-- Claim C2: with a valid (decodable) stored `cID` and a last activity
time more than `sessionTimeout` before `now`, `process` keeps the client
id, reports a rotated (new) session, and sets both the session id and the
event id to the newly minted identifier. -/
theorem c2_session_rotation (cfg : SMConfig) (storage : String → Option (List Char))
    (now : Nat) (rnd : Nat → Nat) (c : List Char) (t : Nat)
    (hc : storage "cID" = some c) (hcne : c ≠ [])
    (hdec : (decodeTime c).isSome = true)
    (hla : lastActivityTime (storage "cID") (storage "sID") (storage "eID") = some t)
    (hexp : (now : Int) - (t : Nat) > (cfg.sessionTimeout : Int)) :
    (process cfg storage now rnd).changes.isNewClient = false ∧
    (process cfg storage now rnd).changes.isNewSession = true ∧
    (process cfg storage now rnd).newState.cID = c ∧
    (process cfg storage now rnd).newState.sID =
      (_generateObject now none cfg.randomnessLength none none rnd).id ∧
    (process cfg storage now rnd).newState.eID =
      (_generateObject now none cfg.randomnessLength none none rnd).id := by
  have hemp : c.isEmpty = false := by simpa [List.isEmpty_iff] using hcne
  have hns : (process cfg storage now rnd).changes.isNewSession = true := by
    rw [process_isNewSession, hla]
    rcases eq_or_ne t 0 with ht | ht
    · subst ht
      simp [jsTruthyNum]
    · have hdt : decide ((now : Int) - ((t : Nat) : Int) > (cfg.sessionTimeout : Int)) = true :=
        decide_eq_true hexp
      simp [jsTruthyNum, ht, hdt]
  refine ⟨?_, hns, ?_, ?_, process_newState_eID cfg storage now rnd⟩
  · rw [process_isNewClient, hc]
    simp [jsTruthy, hemp]
  · rw [process_newState_cID, hc]
    simp [jsTruthy, hemp]
  · rw [process_newState_sID, hns]
    simp

/-- Witness for C2: a client whose only stored identifier is an expired
`cID` encoding the epoch, processed at `now = 2000000`. -/
theorem c2_session_rotation_check :
    (process defaultConfig
        (fun k => if k = "cID" then some "00000000AAAAAAAAAAAA".data else none)
        2000000 (fun _ => 0)).changes.isNewClient = false ∧
    (process defaultConfig
        (fun k => if k = "cID" then some "00000000AAAAAAAAAAAA".data else none)
        2000000 (fun _ => 0)).changes.isNewSession = true ∧
    (process defaultConfig
        (fun k => if k = "cID" then some "00000000AAAAAAAAAAAA".data else none)
        2000000 (fun _ => 0)).newState.cID = "00000000AAAAAAAAAAAA".data ∧
    (process defaultConfig
        (fun k => if k = "cID" then some "00000000AAAAAAAAAAAA".data else none)
        2000000 (fun _ => 0)).newState.sID =
      (_generateObject 2000000 none defaultConfig.randomnessLength none none (fun _ => 0)).id ∧
    (process defaultConfig
        (fun k => if k = "cID" then some "00000000AAAAAAAAAAAA".data else none)
        2000000 (fun _ => 0)).newState.eID =
      (_generateObject 2000000 none defaultConfig.randomnessLength none none (fun _ => 0)).id :=
  c2_session_rotation defaultConfig
    (fun k => if k = "cID" then some "00000000AAAAAAAAAAAA".data else none)
    2000000 (fun _ => 0) ("00000000AAAAAAAAAAAA".data) 0
    rfl (by decide) (by decide) (by decide) (by decide)

/-- Counterexample to claim C3 as stated: at `now = 1800000` a stored
session id decoding to time `0 = now - 1800000` is a last activity time of
exactly `now - sessionTimeout`, with the session id present, yet
`isNewSession` is `true` (the claim says `false`): the decoded time `0` is
falsy in JS, so line 41 treats it as absent and expires the session. -/
theorem c3_zero_time_counterexample :
    lastActivityTime none (some "00000000000000000000".data) none = some 0 ∧
    (1800000 : Int) - ((0 : Nat) : Int) = 1800000 ∧
    jsTruthy (some "00000000000000000000".data) = true ∧
    (process ⟨1800000, 12⟩
        (fun k => if k = "sID" then some "00000000000000000000".data else none)
        1800000 (fun _ => 0)).changes.isNewSession = true := by decide

/-- Claim C3 (amended): with `sessionTimeout = 1800000`, a last activity
time decoding to `now - 1800001` yields `isNewSession = true`; a last
activity time decoding to exactly `now - 1800000`, provided it is nonzero
(a zero timestamp is falsy in JS and is treated as absent) and a session id
is present, yields `isNewSession = false` — strict greater-than
semantics. -/
theorem c3_expiry_boundary :
    (∀ (len : Nat) (storage : String → Option (List Char)) (now : Nat)
        (rnd : Nat → Nat) (t : Nat),
        lastActivityTime (storage "cID") (storage "sID") (storage "eID") = some t →
        (now : Int) - (t : Nat) = 1800001 →
        (process ⟨1800000, len⟩ storage now rnd).changes.isNewSession = true) ∧
    (∀ (len : Nat) (storage : String → Option (List Char)) (now : Nat)
        (rnd : Nat → Nat) (t : Nat),
        lastActivityTime (storage "cID") (storage "sID") (storage "eID") = some t →
        t ≠ 0 →
        (now : Int) - (t : Nat) = 1800000 →
        jsTruthy (storage "sID") = true →
        (process ⟨1800000, len⟩ storage now rnd).changes.isNewSession = false) := by
  constructor
  · intro len storage now rnd t hla hdiff
    rw [process_isNewSession, hla]
    rcases eq_or_ne t 0 with ht | ht
    · subst ht
      simp [jsTruthyNum]
    · simp [jsTruthyNum, ht]
      exact Or.inr (by omega)
  · intro len storage now rnd t hla ht hdiff hsid
    rw [process_isNewSession, hla]
    simp [jsTruthyNum, ht, hsid]
    omega

/-- Witness for the amended C3: one millisecond over the timeout expires
the session; exactly at the timeout (nonzero decoded time) it does not. -/
theorem c3_expiry_boundary_check :
    (process ⟨1800000, 12⟩
        (fun k => if k = "eID" then some "00000001000000000000".data else none)
        1800002 (fun _ => 0)).changes.isNewSession = true ∧
    (process ⟨1800000, 12⟩
        (fun k => if k = "sID" then some "00000001000000000000".data else none)
        1800001 (fun _ => 0)).changes.isNewSession = false :=
  ⟨c3_expiry_boundary.1 12
      (fun k => if k = "eID" then some "00000001000000000000".data else none)
      1800002 (fun _ => 0) 1 (by decide) (by decide),
   c3_expiry_boundary.2 12
      (fun k => if k = "sID" then some "00000001000000000000".data else none)
      1800001 (fun _ => 0) 1 (by decide) (by decide) (by decide) (by decide)⟩

/-- Counterexample to claim C4 as stated: with a stored `eID` that is a
non-empty string failing to decode and a stored `sID` decoding to
`ts = 400000`, line 40 computes `lastActivityTime = null` (not `ts`): the
chain short-circuits on the truthiness of the stored string, so at
`now = 401000` (well within the timeout from `ts`) the session is still
reported new. -/
theorem c4_fallback_chain_counterexample :
    decodeTime "!!!!!!!!".data = none ∧
    "!!!!!!!!".data ≠ [] ∧
    decodeTime (encodeTime8 400000 ++ "AAAAAAAAAAAA".data) = some 400000 ∧
    lastActivityTime none (some (encodeTime8 400000 ++ "AAAAAAAAAAAA".data))
      (some "!!!!!!!!".data) = none ∧
    (process ⟨1800000, 12⟩
        (fun k => if k = "sID" then some (encodeTime8 400000 ++ "AAAAAAAAAAAA".data)
                  else if k = "eID" then some "!!!!!!!!".data else none)
        401000 (fun _ => 0)).changes.isNewSession = true := by decide

/-- Claim C4 (amended): a stored `eID` that is a non-empty string failing
to decode short-circuits the fallback chain: `lastActivityTime` is `null`
(never `sID`'s time), the session is treated as expired, and
`isNewSession` is `true`; the chain falls back to `sID`'s time only when
the stored `eID` is absent or empty. -/
theorem c4_undecodable_eid (cfg : SMConfig) (storage : String → Option (List Char))
    (now : Nat) (rnd : Nat → Nat) (e : List Char)
    (he : storage "eID" = some e) (hne : e ≠ []) (hdec : decodeTime e = none) :
    lastActivityTime (storage "cID") (storage "sID") (storage "eID") = none ∧
    (process cfg storage now rnd).changes.isNewSession = true ∧
    (∀ s : List Char, storage "eID" = none → storage "sID" = some s → s ≠ [] →
      lastActivityTime (storage "cID") (storage "sID") (storage "eID") = decodeTime s) := by
  have hemp : e.isEmpty = false := by simpa [List.isEmpty_iff] using hne
  have hlast : lastActivityTime (storage "cID") (storage "sID") (storage "eID") = none := by
    simp [lastActivityTime, he, jsTruthy, hemp, hdec]
  refine ⟨hlast, ?_, ?_⟩
  · rw [process_isNewSession, hlast]
    simp [jsTruthyNum]
  · intro s hnone
    rw [he] at hnone
    simp at hnone

/-- Witness for the amended C4 at the concrete state of the
counterexample. -/
theorem c4_undecodable_eid_check :
    lastActivityTime
      ((fun k => if k = "sID" then some (encodeTime8 400000 ++ "AAAAAAAAAAAA".data)
                 else if k = "eID" then some "!!!!!!!!".data else none) "cID")
      ((fun k => if k = "sID" then some (encodeTime8 400000 ++ "AAAAAAAAAAAA".data)
                 else if k = "eID" then some "!!!!!!!!".data else none) "sID")
      ((fun k => if k = "sID" then some (encodeTime8 400000 ++ "AAAAAAAAAAAA".data)
                 else if k = "eID" then some "!!!!!!!!".data else none) "eID") = none ∧
    (process ⟨1800000, 12⟩
        (fun k => if k = "sID" then some (encodeTime8 400000 ++ "AAAAAAAAAAAA".data)
                  else if k = "eID" then some "!!!!!!!!".data else none)
        401000 (fun _ => 0)).changes.isNewSession = true ∧
    (∀ s : List Char,
      (fun k => if k = "sID" then some (encodeTime8 400000 ++ "AAAAAAAAAAAA".data)
                else if k = "eID" then some "!!!!!!!!".data else none) "eID" = none →
      (fun k => if k = "sID" then some (encodeTime8 400000 ++ "AAAAAAAAAAAA".data)
                else if k = "eID" then some "!!!!!!!!".data else none) "sID" = some s →
      s ≠ [] →
      lastActivityTime
        ((fun k => if k = "sID" then some (encodeTime8 400000 ++ "AAAAAAAAAAAA".data)
                   else if k = "eID" then some "!!!!!!!!".data else none) "cID")
        ((fun k => if k = "sID" then some (encodeTime8 400000 ++ "AAAAAAAAAAAA".data)
                   else if k = "eID" then some "!!!!!!!!".data else none) "sID")
        ((fun k => if k = "sID" then some (encodeTime8 400000 ++ "AAAAAAAAAAAA".data)
                   else if k = "eID" then some "!!!!!!!!".data else none) "eID") = decodeTime s) :=
  c4_undecodable_eid ⟨1800000, 12⟩
    (fun k => if k = "sID" then some (encodeTime8 400000 ++ "AAAAAAAAAAAA".data)
              else if k = "eID" then some "!!!!!!!!".data else none)
    401000 (fun _ => 0) ("!!!!!!!!".data) rfl (by decide) (by decide)

/-- Claim C5: `rehydrate` introduces no separate engine logic — for every
cookie state it returns exactly what `process` returns when given the
storage handler described by the claim (cookie fields, null when falsy),
at the same time and with the same injected randomness. -/
theorem c5_rehydrate_refines_process (cfg : SMConfig) (cs : CookieState)
    (now : Nat) (rnd : Nat → Nat) :
    rehydrate cfg cs now rnd = process cfg (specCookieStorage cs) now rnd := by
  have hfun : (fun key =>
      let v := (List.lookup key [("cID", cs.cID), ("sID", cs.sID), ("eID", cs.eID)]).join
      if jsTruthy v then v else none) = specCookieStorage cs := by
    funext key
    by_cases h1 : key = "cID"
    · subst h1; simp [specCookieStorage, List.lookup]
    · by_cases h2 : key = "sID"
      · subst h2; simp [specCookieStorage, List.lookup]
      · by_cases h3 : key = "eID"
        · subst h3; simp [specCookieStorage, List.lookup]
        · have e1 : (key == "cID") = false := by simpa using h1
          have e2 : (key == "sID") = false := by simpa using h2
          have e3 : (key == "eID") = false := by simpa using h3
          simp [specCookieStorage, List.lookup, h1, h2, h3, e1, e2, e3, jsTruthy]
  simp only [rehydrate]
  rw [hfun]

/-- The accumulator fold of `decodeTimeAux` in pure digit form. -/
def decDigits (l : List Nat) : Nat := l.foldl (fun a d => a * 64 + d) 0

lemma foldl_digits_eq (a : Nat) (l : List Nat) :
    l.foldl (fun x d => x * 64 + d) a = a * 64 ^ l.length + decDigits l := by
  induction l generalizing a with
  | nil => simp [decDigits]
  | cons d l ih =>
    have hd : decDigits (d :: l) = d * 64 ^ l.length + decDigits l := by
      simp only [decDigits, List.foldl_cons]
      rw [show 0 * 64 + d = d by ring, ih d]
      rfl
    simp only [List.foldl_cons, List.length_cons, hd]
    rw [ih (a * 64 + d), pow_succ]
    ring

lemma decDigits_cons (d : Nat) (l : List Nat) :
    decDigits (d :: l) = d * 64 ^ l.length + decDigits l := by
  simp only [decDigits, List.foldl_cons]
  rw [show 0 * 64 + d = d by ring, foldl_digits_eq]
  rfl

lemma decDigits_append_singleton (l : List Nat) (x : Nat) :
    decDigits (l ++ [x]) = decDigits l * 64 + x := by
  simp [decDigits, List.foldl_append]

lemma decDigits_lt_pow (l : List Nat) (h : ∀ d ∈ l, d < 64) :
    decDigits l < 64 ^ l.length := by
  induction l with
  | nil => simp [decDigits]
  | cons d l ih =>
    rw [decDigits_cons]
    have hd : d < 64 := h d (by simp)
    have hl := ih (fun x hx => h x (by simp [hx]))
    calc d * 64 ^ l.length + decDigits l
        < d * 64 ^ l.length + 64 ^ l.length := by omega
      _ = (d + 1) * 64 ^ l.length := by ring
      _ ≤ 64 * 64 ^ l.length := Nat.mul_le_mul_right _ hd
      _ = 64 ^ (d :: l).length := by rw [List.length_cons, pow_succ]; ring

lemma encodeTimeDigits_length (n t : Nat) : (encodeTimeDigits n t).length = n := by
  induction n generalizing t with
  | zero => simp [encodeTimeDigits]
  | succ n ih => simp [encodeTimeDigits, ih]

lemma encodeTimeDigits_lt (n t : Nat) : ∀ d ∈ encodeTimeDigits n t, d < 64 := by
  induction n generalizing t with
  | zero => simp [encodeTimeDigits]
  | succ n ih =>
    intro d hd
    simp only [encodeTimeDigits, List.mem_append, List.mem_singleton] at hd
    rcases hd with hd | hd
    · exact ih _ d hd
    · subst hd
      exact Nat.mod_lt _ (by norm_num)

lemma decDigits_encodeTimeDigits (n t : Nat) :
    decDigits (encodeTimeDigits n t) = t % 64 ^ n := by
  induction n generalizing t with
  | zero =>
    simp [encodeTimeDigits, decDigits]
    omega
  | succ n ih =>
    simp only [encodeTimeDigits]
    rw [decDigits_append_singleton, ih, pow_succ']
    rw [Nat.mod_mul]
    ring

/-- The alphabet lookup inverts `charAt` on every in-range digit. -/
lemma charValue_charOfDigit : ∀ d < 64, charValue (charOfDigit d) = some d := by decide

/-- The alphabet is strictly increasing in character order, the key fact
behind lexicographic sorting of encoded timestamps. -/
lemma charOfDigit_mono : ∀ a < 64, ∀ b < 64, a < b → charOfDigit a < charOfDigit b := by decide

lemma decodeTimeAux_map_charOfDigit (l : List Nat) (h : ∀ d ∈ l, d < 64) :
    ∀ acc, decodeTimeAux acc (l.map charOfDigit) =
      some (l.foldl (fun a d => a * 64 + d) acc) := by
  induction l with
  | nil =>
    intro acc
    simp [decodeTimeAux]
  | cons d l ih =>
    intro acc
    have hd : d < 64 := h d (by simp)
    simp only [List.map_cons, decodeTimeAux, charValue_charOfDigit d hd, List.foldl_cons]
    exact ih (fun x hx => h x (by simp [hx])) (acc * 64 + d)

/-- Claim C6: the timestamp round-trip law — for every `t < 64 ^ 8`,
decoding the 8-character time segment produced for `t` by
`_generateObject`'s encoding loop recovers exactly `t`. -/
theorem c6_time_roundtrip (t : Nat) (h : t < 64 ^ 8) :
    _decodeTime (encodeTime8 t) = some t := by
  unfold _decodeTime encodeTime8
  rw [decodeTimeAux_map_charOfDigit _ (encodeTimeDigits_lt 8 t) 0]
  have : (encodeTimeDigits 8 t).foldl (fun a d => a * 64 + d) 0 =
      decDigits (encodeTimeDigits 8 t) := rfl
  rw [this, decDigits_encodeTimeDigits, Nat.mod_eq_of_lt h]

/-- Witness for C6 at a realistic millisecond timestamp. -/
theorem c6_time_roundtrip_check :
    1700000000000 < 64 ^ 8 ∧
    _decodeTime (encodeTime8 1700000000000) = some 1700000000000 :=
  ⟨by norm_num, c6_time_roundtrip 1700000000000 (by norm_num)⟩

lemma map_charOfDigit_lt (l1 : List Nat) :
    ∀ l2 : List Nat, l1.length = l2.length →
    (∀ d ∈ l1, d < 64) → (∀ d ∈ l2, d < 64) →
    decDigits l1 < decDigits l2 →
    l1.map charOfDigit < l2.map charOfDigit := by
  induction l1 with
  | nil =>
    intro l2 hlen _ _ hlt
    cases l2 with
    | nil => simp [decDigits] at hlt
    | cons d2 l2 => simp at hlen
  | cons d1 l1 ih =>
    intro l2 hlen h1 h2 hlt
    cases l2 with
    | nil => simp at hlen
    | cons d2 l2 =>
      have hd1 : d1 < 64 := h1 d1 (by simp)
      have hd2 : d2 < 64 := h2 d2 (by simp)
      have hlen2 : l1.length = l2.length := by simpa using hlen
      simp only [List.map_cons]
      rcases Nat.lt_trichotomy d1 d2 with hd | hd | hd
      · exact List.Lex.rel (charOfDigit_mono d1 hd1 d2 hd2 hd)
      · subst hd
        have htail : decDigits l1 < decDigits l2 := by
          rw [decDigits_cons, decDigits_cons, hlen2] at hlt
          exact Nat.lt_of_add_lt_add_left hlt
        exact List.Lex.cons
          (ih l2 hlen2 (fun x hx => h1 x (by simp [hx]))
            (fun x hx => h2 x (by simp [hx])) htail)
      · exfalso
        have b2 : decDigits l2 < 64 ^ l2.length :=
          decDigits_lt_pow l2 (fun x hx => h2 x (by simp [hx]))
        rw [decDigits_cons, decDigits_cons, hlen2] at hlt
        have hflip : d2 * 64 ^ l2.length + decDigits l2 <
            d1 * 64 ^ l2.length + decDigits l1 :=
          calc d2 * 64 ^ l2.length + decDigits l2
              < d2 * 64 ^ l2.length + 64 ^ l2.length := Nat.add_lt_add_left b2 _
            _ = (d2 + 1) * 64 ^ l2.length := by ring
            _ ≤ d1 * 64 ^ l2.length := Nat.mul_le_mul_right _ hd
            _ ≤ d1 * 64 ^ l2.length + decDigits l1 := Nat.le_add_right _ _
        exact Nat.lt_asymm hlt hflip

/-- Claim C7: encoding is monotonic — for `t1 < t2` in the 8-digit base-64
range, the encoded time string for `t1` is strictly smaller than the one
for `t2` under lexicographic (byte-wise, since the alphabet is ASCII)
comparison, both as character lists and as strings. -/
theorem c7_encode_monotonic (t1 t2 : Nat) (h12 : t1 < t2) (h2 : t2 < 64 ^ 8) :
    encodeTime8 t1 < encodeTime8 t2 ∧
    String.mk (encodeTime8 t1) < String.mk (encodeTime8 t2) := by
  have hd : decDigits (encodeTimeDigits 8 t1) < decDigits (encodeTimeDigits 8 t2) := by
    rw [decDigits_encodeTimeDigits, decDigits_encodeTimeDigits,
      Nat.mod_eq_of_lt (lt_trans h12 h2), Nat.mod_eq_of_lt h2]
    exact h12
  have hlist : encodeTime8 t1 < encodeTime8 t2 :=
    map_charOfDigit_lt _ _
      (by rw [encodeTimeDigits_length, encodeTimeDigits_length])
      (encodeTimeDigits_lt 8 t1) (encodeTimeDigits_lt 8 t2) hd
  refine ⟨hlist, ?_⟩
  rw [String.lt_iff_toList_lt]
  exact hlist

/-- Witness for C7 at two concrete timestamps. -/
theorem c7_encode_monotonic_check :
    encodeTime8 1000 < encodeTime8 1700000000000 ∧
    String.mk (encodeTime8 1000) < String.mk (encodeTime8 1700000000000) :=
  c7_encode_monotonic 1000 1700000000000 (by norm_num) (by norm_num)

/-- Counterexample to claim C8 as stated: `"00000000-abc"` splits into two
`'-'`-separated parts (neither one nor three), yet `decodeID` succeeds via
the legacy fixed-width parse; `"0-a-b"` is shorter than the 8-character
time segment, yet `decodeID` succeeds via the 3-part parse, which never
checks the time segment's length. -/
theorem c8_decode_counterexample :
    (splitOnChar '-' "00000000-abc".data).length = 2 ∧
    decodeID "00000000-abc".data ≠ none ∧
    ("0-a-b".data).length < 8 ∧
    decodeID "0-a-b".data ≠ none := by decide

/-- Claim C8 (amended): `decodeID` returns the defined invalid result
(null) for the empty string and for every string that does not split into
exactly three `'-'`-separated parts and is shorter than the 8-character
time segment; it is total (never throws) by construction.  Strings with a
part count other than one or three can still decode via the legacy path
when their first 8 characters are alphabet symbols, and 3-part strings
decode without any time-segment length check. -/
theorem c8_decode_invalid (s : List Char)
    (h : s.length = 0 ∨ ((splitOnChar '-' s).length ≠ 3 ∧ s.length < 8)) :
    decodeID s = none := by
  rcases h with h0 | ⟨h3, h8⟩
  · simp [decodeID, _decodeObj, h0]
  · by_cases h0 : s.length = 0
    · simp [decodeID, _decodeObj, h0]
    · simp [decodeID, _decodeObj, h0, h3, h8]

/-- Witness for the amended C8 on a short legacy string and on the empty
string. -/
theorem c8_decode_invalid_check :
    decodeID "abc".data = none ∧ decodeID "".data = none :=
  ⟨c8_decode_invalid ("abc".data) (Or.inr ⟨by decide, by decide⟩),
   c8_decode_invalid ("".data) (Or.inl (by decide))⟩

lemma jsCharAt_length_of_lt (l : List Char) (i : Nat) (h : i < l.length) :
    (jsCharAt l i).length = 1 := by
  simp [jsCharAt]
  omega

lemma length_flatten_of_ones {α : Type} (L : List (List α)) (h : ∀ x ∈ L, x.length = 1) :
    L.flatten.length = L.length := by
  induction L with
  | nil => simp
  | cons a L ih =>
    have ha : a.length = 1 := h a (by simp)
    have hL := ih (fun x hx => h x (by simp [hx]))
    simp [ha, hL]
    omega

lemma length_flatten_map_range {α : Type} (n : Nat) (f : Nat → List α)
    (h : ∀ i, i < n → (f i).length = 1) :
    (((List.range n).map f).flatten).length = n := by
  have h2 : ∀ x ∈ (List.range n).map f, x.length = 1 := by
    intro x hx
    simp only [List.mem_map, List.mem_range] at hx
    obtain ⟨i, hi, rfl⟩ := hx
    exact h i hi
  rw [length_flatten_of_ones _ h2, List.length_map, List.length_range]

lemma newRnd_length (n : Nat) (rnd : Nat → Nat) (hr : ∀ i, rnd i < 64) :
    (newRnd n rnd).length = max 12 n := by
  simp only [newRnd]
  apply length_flatten_map_range
  intro i _
  apply jsCharAt_length_of_lt
  have := hr i
  have hlen : PUSH_CHARS.length = 64 := by decide
  omega

lemma hashIsh_length (codes : List Nat) (n : Nat) (chars : List Char)
    (h64 : 64 ≤ chars.length) :
    (hashIsh codes n chars).length = n := by
  simp only [hashIsh]
  apply length_flatten_map_range
  intro i _
  apply jsCharAt_length_of_lt
  have hle : ∀ m : Nat, Nat.land m 63 ≤ 63 := fun m => Nat.and_le_right
  exact lt_of_le_of_lt (hle _) (by omega)

/-- Claim C10: the random/hash part is never shorter than 12 characters —
`newRnd`, `hash`, and both generated-suffix paths of `_generateObject`
produce exactly `max 12 length` characters: exactly 12 when the requested
length is below 12, exactly the requested length otherwise.  The
hypothesis on `rnd` states that the PRNG char indices are in alphabet
range, as `Math.floor(prng() * 64)` guarantees. -/
theorem c10_length_clamp (len now : Nat) (rnd : Nat → Nat) (hr : ∀ i, rnd i < 64)
    (codes : List Nat) :
    (newRnd len rnd).length = max 12 len ∧
    (hash codes len).length = max 12 len ∧
    (_generateObject now none len none (some codes) rnd).randomness.length = max 12 len ∧
    (_generateObject now none len none none rnd).randomness.length = max 12 len ∧
    (len < 12 → max 12 len = 12) ∧
    (12 ≤ len → max 12 len = len) := by
  have hpc : 64 ≤ PUSH_CHARS.length := by decide
  refine ⟨newRnd_length len rnd hr, ?_, ?_, ?_, ?_, ?_⟩
  · unfold hash
    exact hashIsh_length codes _ _ hpc
  · simp only [_generateObject]
    exact hashIsh_length codes _ _ hpc
  · simp only [_generateObject]
    rw [newRnd_length _ rnd hr]
    omega
  · omega
  · omega

/-- Witness for C10 at a below-minimum requested length. -/
theorem c10_length_clamp_check :
    (newRnd 5 (fun _ => 0)).length = max 12 5 ∧
    (hash [104, 105] 5).length = max 12 5 ∧
    (_generateObject 0 none 5 none (some [104, 105]) (fun _ => 0)).randomness.length = max 12 5 ∧
    (_generateObject 0 none 5 none none (fun _ => 0)).randomness.length = max 12 5 ∧
    (5 < 12 → max 12 5 = 12) ∧
    (12 ≤ 5 → max 12 5 = 5) :=
  c10_length_clamp 5 0 (fun _ => 0) (fun _ => by norm_num) [104, 105]

end Divortio
